import Mathlib

/-!
Shallow embedding of `conditioned_main.py`, the training driver of
pytorch-neural-enhance, together with proofs about its behaviour.

Pure or structurally simple parts of the script (split-size arithmetic,
selector conditionals, checkpoint cadence, the event structure of each
epoch) are translated into executable Lean definitions; seeded library
randomness is modelled as deterministic functions of the generator state.
-/

namespace CondMain

/-! ### Train/test split sizes

`train_size = int(0.8 * len(dataset))`, `test_size = len(dataset) - train_size`
(lines 69-75, computed separately for the landscape and portrait datasets).
The Python float product `0.8 * n` is modelled as the exact rational
`(0.8 : ℚ) * n`, truncated with `int` (floor on nonnegative values).  -/

def train_size (n : ℕ) : ℕ := ⌊(0.8 : ℚ) * n⌋₊

def test_size (n : ℕ) : ℕ := n - train_size n

theorem train_size_eq (n : ℕ) : train_size n = 4 * n / 5 := by
  unfold train_size
  have h : (0.8 : ℚ) * n = (4 * n : ℕ) / (5 : ℕ) := by
    push_cast
    ring
  rw [h, Nat.floor_div_nat, Nat.floor_natCast]

theorem test_size_eq (n : ℕ) : test_size n = n - 4 * n / 5 := by
  unfold test_size
  rw [train_size_eq]

/-! ### Seeded randomness

`random.seed(opt.manual_seed)` and `torch.manual_seed(opt.manual_seed)`
(lines 46-47) put both library generators into states that are functions of
the seed alone.  The generators themselves live in external libraries; they
are modelled here as a concrete deterministic mixing function of the state.
Only determinism of the state evolution matters for the claims below, not
the statistical quality of the mix.  -/

/-- Modelled: one step of the library pseudo-random generator, standing in
for the external Mersenne-Twister state update; a deterministic function of
the current state. -/
def lcg (s : ℕ) : ℕ := (6364136223846793005 * s + 1442695040888963407) % 2 ^ 64

/-- Draw one value below `bound` and return the advanced generator state. -/
def drawNat (s bound : ℕ) : ℕ × ℕ :=
  let s' := lcg s
  (s' % bound, s')

/-- Take `fuel` elements of `pool` without replacement, threading the
generator state (the common core of `torch.randperm` and `random.sample`). -/
def permAux : ℕ → List ℕ → ℕ → List ℕ × ℕ
  | 0, _, s => ([], s)
  | fuel + 1, pool, s =>
    if pool.isEmpty then ([], s)
    else
      let (j, s') := drawNat s pool.length
      let (rest, s'') := permAux fuel (pool.eraseIdx j) s'
      (pool.getD j 0 :: rest, s'')

/-- Modelled: `torch.randperm n` on generator state `s`: a permutation of
`range n` together with the advanced state. -/
def randperm (n s : ℕ) : List ℕ × ℕ := permAux n (List.range n) s

/-- Modelled: `random.sample(range(n), k)` (line 111): `k` distinct indices
from `range n`, raising (`none`) when `k` exceeds the population size. -/
def randomSample (n k s : ℕ) : Option (List ℕ) :=
  if k ≤ n then some (permAux k (List.range n) s).1 else none

/-! ### Run configuration

`opt = parser.parse_args()` (lines 17-33).  Only the fields the claims
touch are carried; `checkpoint_every` is taken as a number (its parsed
default is the integer 10). -/

structure Options where
  batch_size : ℕ
  epochs : ℕ
  cuda : Bool
  manual_seed : Option ℕ
  run_tag : String
  checkpoint_every : ℕ
  model_type : String
  loss : String
  data_path : String
deriving Repr, DecidableEq

/-- Ambient inputs that vary between two runs of the same configuration:
the wall clock read at line 36 and the OS entropy behind
`random.randint(1, 10000)` at line 44. -/
structure Ambient where
  clock : String
  osEntropy : ℕ
deriving Repr, DecidableEq

/-- Lines 43-44: `if opt.manual_seed is None: opt.manual_seed = random.randint(...)`.
The only write to the options record after parsing. -/
def resolveSeed (opt : Options) (amb : Ambient) : Options :=
  if opt.manual_seed = none then { opt with manual_seed := some amb.osEntropy } else opt

/-- The seed value actually used by lines 46-47. -/
def usedSeed (opt : Options) (amb : Ambient) : ℕ :=
  match opt.manual_seed with
  | some s => s
  | none => amb.osEntropy

/-- The random outcomes of one run that the spec's determinism property is
about: train-split membership for both orientations and the three sampled
visualization indices. -/
structure RunRand where
  trainLandscape : List ℕ
  testLandscape : List ℕ
  trainPortrait : List ℕ
  testPortrait : List ℕ
  vizIdxs : Option (List ℕ)
deriving Repr, DecidableEq

/-- Lines 69-75 and 111: both `random_split` calls draw consecutively from
the torch generator seeded at line 47; `random.sample` draws from the
python generator seeded at line 46.  `nL`, `nP` are the landscape and
portrait dataset lengths (fixed by the dataset path, hence by the
configuration). -/
def runRandomness (opt : Options) (amb : Ambient) (nL nP : ℕ) : RunRand :=
  let seed := usedSeed opt amb
  let permL := (randperm nL seed).1
  let torchState := (randperm nL seed).2
  let permP := (randperm nP torchState).1
  { trainLandscape := permL.take (train_size nL)
    testLandscape := permL.drop (train_size nL)
    trainPortrait := permP.take (train_size nP)
    testPortrait := permP.drop (train_size nP)
    vizIdxs := randomSample (test_size nL) 3 seed }

/-! ### Model and criterion selection

Lines 86-106: chained independent `if` statements, each overwriting the
selection variable on a string match, followed by `assert model` /
`assert criterion`.  When no branch fires the variable is never bound
(`none`) and the assertion line is where execution stops. -/

inductive ModelChoice
  | conditionalCAN
  | conditionalUNet
deriving Repr, DecidableEq

inductive LossChoice
  | mseLoss
  | l1Loss
  | nimaL1
  | nimaL2
  | colorSSIM_l1
  | colorSSIM_default
deriving Repr, DecidableEq

/-- Lines 86-89: the two `if opt.model_type == ...` statements. -/
def selectModel (model_type : String) : Option ModelChoice :=
  let m : Option ModelChoice := none
  let m := if model_type = "can32" then some ModelChoice.conditionalCAN else m
  let m := if model_type = "unet" then some ModelChoice.conditionalUNet else m
  m

/-- Lines 93-104: the six `if opt.loss == ...` statements. -/
def selectCriterion (loss : String) : Option LossChoice :=
  let c : Option LossChoice := none
  let c := if loss = "mse" then some LossChoice.mseLoss else c
  let c := if loss = "mae" then some LossChoice.l1Loss else c
  let c := if loss = "l1nima" then some LossChoice.nimaL1 else c
  let c := if loss = "l2nima" then some LossChoice.nimaL2 else c
  let c := if loss = "l1ssim" then some LossChoice.colorSSIM_l1 else c
  let c := if loss = "colorssim" then some LossChoice.colorSSIM_default else c
  c

/-- Line 29: `choices=['can32','unet']`. -/
def modelTypeChoices : List String := ["can32", "unet"]

/-- Line 30: `choices=['mse','mae','l1nima','l2nima','l1ssim','colorssim']`. -/
def lossChoices : List String := ["mse", "mae", "l1nima", "l2nima", "l1ssim", "colorssim"]

/-! ### Joined loader, per-epoch loss scalars

`JoinedDataLoader` lives in `torch_utils.py`, which is not part of the
sources here; it is modelled from the spec. -/

/-- Modelled from the spec: `JoinedDataLoader` (from `torch_utils`, absent
from the sources).  Spec 4.1: on each iteration step it advances both
underlying iterables and yields one combined batch; once either stream is
exhausted iteration stops, so the shorter stream bounds iteration. -/
def joinedBatches {α β : Type} (a : List α) (b : List β) : List (α × β) :=
  a.zip b

/-- Modelled from the spec: the length `JoinedDataLoader` exposes, required
by spec 4.1 to equal the number of combined batches actually produced. -/
def joinedLen {α β : Type} (a : List α) (b : List β) : ℕ :=
  min a.length b.length

/-- Lines 114-128: `cumulative_loss` accumulates `loss.item()` over the
batches the train loader yields; the logged `Train Error` scalar is
`cumulative_loss / len(train_loader)`. -/
def trainErrorScalar {α β : Type} (lossOf : α × β → ℚ) (a : List α) (b : List β) : ℚ :=
  ((joinedBatches a b).map lossOf).sum / (joinedLen a b : ℚ)

/-- Lines 135-142: `test_loss` collects one `.item()` per yielded test
batch and `avg_loss = sum(test_loss)/len(test_loss)`; a zero divisor is a
`ZeroDivisionError`, modelled as `none`. -/
def avgTestLoss (test_loss : List ℚ) : Option ℚ :=
  if test_loss.length = 0 then none
  else some (test_loss.sum / (test_loss.length : ℚ))

/-! ### Per-epoch event trace

Lines 112-155.  Each loop iteration (0-based `epoch`) logs the train
scalar, saves a checkpoint when `(epoch+1) % checkpoint_every == 0`,
logs the test scalar, and logs one image grid per sampled index; after the
loop one final model file is saved. -/

inductive CkptFile
  | epochCkpt (tag : String) (n : ℕ)
  | finalCkpt (tag : String)
deriving Repr, DecidableEq

/-- Lines 131 and 155: the filename each saved file gets on disk. -/
def fileName : CkptFile → String
  | CkptFile.epochCkpt tag n => tag ++ "_epoch" ++ toString n ++ ".pt"
  | CkptFile.finalCkpt tag => tag ++ "_final.pt"

inductive LogEvent
  | scalar (name : String) (epoch : ℕ)
  | save (f : CkptFile)
  | image (idx : ℕ) (epoch : ℕ)
deriving Repr, DecidableEq

/-- The observable events of one iteration of the `for epoch in range(opt.epochs)`
loop, in program order (lines 112-152). -/
def epochEvents (tag : String) (ce : ℕ) (testIdxs : List ℕ) (epoch : ℕ) : List LogEvent :=
  [LogEvent.scalar "Train Error" epoch]
  ++ (if (epoch + 1) % ce = 0 then [LogEvent.save (CkptFile.epochCkpt tag (epoch + 1))] else [])
  ++ [LogEvent.scalar "Test Error" epoch]
  ++ testIdxs.map (fun idx => LogEvent.image idx epoch)

/-- The whole run: every epoch's events followed by the final save
(lines 112-155). -/
def runEvents (tag : String) (ce epochs : ℕ) (testIdxs : List ℕ) : List LogEvent :=
  ((List.range epochs).map (epochEvents tag ce testIdxs)).flatten
  ++ [LogEvent.save (CkptFile.finalCkpt tag)]

/-- The checkpoint file carried by a save event, if any. -/
def saveOf : LogEvent → Option CkptFile
  | LogEvent.save f => some f
  | _ => none

/-- The (index, epoch) pair carried by an image-grid event, if any. -/
def imageOf : LogEvent → Option (ℕ × ℕ)
  | LogEvent.image idx e => some (idx, e)
  | _ => none

/-- The files written during a run, in the order they are saved. -/
def savedFiles (tag : String) (ce epochs : ℕ) (testIdxs : List ℕ) : List CkptFile :=
  (runEvents tag ce epochs testIdxs).filterMap saveOf

/-! ### Evaluation phase (lines 134-152)

Per epoch: `model.eval()`, then the test loop whose forward passes run
inside `with torch.no_grad():`, then the visualization loop whose forward
pass at line 149 is *not* inside a `no_grad` block.  Neither loop calls
`backward`, `optimizer.step` or writes a parameter. -/

inductive GradMode
  | track
  | noGrad
deriving Repr, DecidableEq

inductive EvalEvent
  | forward (mode : GradMode)
  | paramWrite
deriving Repr, DecidableEq

/-- Lines 136-141: one forward pass per yielded test batch, inside
`torch.no_grad`. -/
def testLoopEvents (numTestBatches : ℕ) : List EvalEvent :=
  (List.range numTestBatches).map (fun _ => EvalEvent.forward GradMode.noGrad)

/-- Lines 145-152: one forward pass per visualization index, with gradient
tracking left enabled. -/
def vizLoopEvents (testIdxs : List ℕ) : List EvalEvent :=
  testIdxs.map (fun _ => EvalEvent.forward GradMode.track)

/-- The evaluating-epoch phase: test loop followed by visualization loop. -/
def evalPhaseEvents (numTestBatches : ℕ) (testIdxs : List ℕ) : List EvalEvent :=
  testLoopEvents numTestBatches ++ vizLoopEvents testIdxs

/-! ### Helper lemmas -/

theorem permAux_fst_length (fuel : ℕ) :
    ∀ (pool : List ℕ) (s : ℕ), (permAux fuel pool s).1.length = min fuel pool.length := by
  induction fuel with
  | zero => intro pool s; simp [permAux]
  | succ f ih =>
    intro pool s
    rw [permAux]
    by_cases hp : pool.isEmpty
    · rw [if_pos hp]
      rw [List.isEmpty_iff] at hp
      simp [hp]
    · rw [if_neg hp]
      rw [List.isEmpty_iff] at hp
      have hlen : 0 < pool.length := List.length_pos.mpr hp
      simp only [drawNat]
      have hj : lcg s % pool.length < pool.length := Nat.mod_lt _ hlen
      simp only [List.length_cons, ih]
      rw [List.length_eraseIdx_of_lt hj]
      omega

theorem randperm_fst_length (n s : ℕ) : (randperm n s).1.length = n := by
  rw [randperm, permAux_fst_length, List.length_range, Nat.min_self]

theorem train_size_le (n : ℕ) : train_size n ≤ n := by
  rw [train_size_eq]
  omega

/-! ### Claims -/

/-- Claim C3: for every orientation dataset of length `n`, the train split
has size `⌊0.8 * n⌋ = 4 * n / 5`, the test split has size `n - 4 * n / 5`,
and the two sizes sum exactly to `n`; this holds for the landscape split
and the portrait split of every run. -/
theorem split_sizes_exact (opt : Options) (amb : Ambient) (nL nP : ℕ) :
    (runRandomness opt amb nL nP).trainLandscape.length = train_size nL
  ∧ (runRandomness opt amb nL nP).testLandscape.length = test_size nL
  ∧ (runRandomness opt amb nL nP).trainLandscape.length
      + (runRandomness opt amb nL nP).testLandscape.length = nL
  ∧ (runRandomness opt amb nL nP).trainPortrait.length = train_size nP
  ∧ (runRandomness opt amb nL nP).testPortrait.length = test_size nP
  ∧ (runRandomness opt amb nL nP).trainPortrait.length
      + (runRandomness opt amb nL nP).testPortrait.length = nP
  ∧ train_size nL = 4 * nL / 5 ∧ test_size nL = nL - 4 * nL / 5 := by
  have hL := randperm_fst_length nL (usedSeed opt amb)
  have hP := randperm_fst_length nP (randperm nL (usedSeed opt amb)).2
  have htL := train_size_le nL
  have htP := train_size_le nP
  have hsL : test_size nL = nL - train_size nL := rfl
  have hsP : test_size nP = nP - train_size nP := rfl
  simp only [runRandomness, List.length_take, List.length_drop, hL, hP]
  exact ⟨by omega, by omega, by omega, by omega, by omega, by omega,
    train_size_eq nL, test_size_eq nL⟩

/-- Claim C9: sampling the three visualization indices succeeds exactly
when the landscape test split holds at least 3 samples, which happens
exactly when the landscape dataset holds at least 11 samples; on any
smaller dataset `random.sample` raises (`none`) before the training loop
starts. -/
theorem viz_sample_requires_eleven (n s : ℕ) :
    ((randomSample (test_size n) 3 s).isSome ↔ 3 ≤ test_size n)
  ∧ (3 ≤ test_size n ↔ 11 ≤ n) := by
  constructor
  · by_cases h : 3 ≤ test_size n <;> simp [randomSample, h]
  · rw [test_size_eq]
    omega

/-- Claim C10: the per-epoch average test loss is defined exactly when the
joined test loader yielded at least one batch; with zero batches the
division has a zero divisor and the epoch cannot complete. -/
theorem completed_epoch_needs_test_batches {α β : Type} (lossOf : α × β → ℚ)
    (a : List α) (b : List β) :
    ((avgTestLoss ((joinedBatches a b).map lossOf)).isSome
        ↔ (joinedBatches a b).length ≠ 0)
  ∧ ((joinedBatches a b).length = 0 ↔ a.length = 0 ∨ b.length = 0) := by
  constructor
  · by_cases h : ((joinedBatches a b).map lossOf).length = 0 <;>
      simp_all [avgTestLoss]
  · simp [joinedBatches]

/-- Claim C7: the logged `Train Error` scalar equals the sum of the
per-batch losses divided by the joined loader's exposed length, and that
exposed length equals the number of combined batches the joined loader
yields. -/
theorem train_error_equals_batch_average {α β : Type} (lossOf : α × β → ℚ)
    (a : List α) (b : List β) :
    joinedLen a b = (joinedBatches a b).length
  ∧ trainErrorScalar lossOf a b
      = ((joinedBatches a b).map lossOf).sum / ((joinedBatches a b).length : ℚ) := by
  have h : (joinedBatches a b).length = joinedLen a b := by
    simp [joinedBatches, joinedLen]
  refine ⟨h.symm, ?_⟩
  unfold trainErrorScalar
  rw [← h]

/-- Claim C4: a model-type or loss selector matching no branch of the
chained conditionals leaves the selection unset (`none`), so execution
fails fast at the guarding `assert`; every selector value the CLI parser
admits makes the corresponding selection and the assertion passes. -/
theorem selector_assertion_guard :
    (∀ s, s ∉ modelTypeChoices → selectModel s = none)
  ∧ (∀ s, s ∈ modelTypeChoices → (selectModel s).isSome = true)
  ∧ (∀ s, s ∉ lossChoices → selectCriterion s = none)
  ∧ (∀ s, s ∈ lossChoices → (selectCriterion s).isSome = true) := by
  refine ⟨?_, ?_, ?_, ?_⟩
  · intro s h
    simp only [modelTypeChoices, List.mem_cons, List.not_mem_nil, or_false, not_or] at h
    simp [selectModel, h.1, h.2]
  · intro s h
    simp only [modelTypeChoices, List.mem_cons, List.not_mem_nil, or_false] at h
    rcases h with h | h <;> simp [selectModel, h]
  · intro s h
    simp only [lossChoices, List.mem_cons, List.not_mem_nil, or_false, not_or] at h
    obtain ⟨h1, h2, h3, h4, h5, h6⟩ := h
    simp [selectCriterion, h1, h2, h3, h4, h5, h6]
  · intro s h
    simp only [lossChoices, List.mem_cons, List.not_mem_nil, or_false] at h
    rcases h with h | h | h | h | h | h <;> simp [selectCriterion, h]

theorem selector_assertion_guard_witness :
    ("abc" ∉ modelTypeChoices ∧ selectModel "abc" = none)
  ∧ ("can32" ∈ modelTypeChoices ∧ (selectModel "can32").isSome = true)
  ∧ ("abc" ∉ lossChoices ∧ selectCriterion "abc" = none)
  ∧ ("colorssim" ∈ lossChoices ∧ (selectCriterion "colorssim").isSome = true) :=
  ⟨⟨by decide, selector_assertion_guard.1 "abc" (by decide)⟩,
   ⟨by decide, selector_assertion_guard.2.1 "can32" (by decide)⟩,
   ⟨by decide, selector_assertion_guard.2.2.1 "abc" (by decide)⟩,
   ⟨by decide, selector_assertion_guard.2.2.2 "colorssim" (by decide)⟩⟩

/-- Claim C2: with a fixed manual seed, two runs of the same configuration
that differ arbitrarily in wall clock and OS entropy produce identical
train/test split membership for both orientation datasets and identical
sampled visualization indices. -/
theorem fixed_seed_determinism (opt : Options) (a1 a2 : Ambient) (nL nP s : ℕ)
    (h : opt.manual_seed = some s) :
    runRandomness opt a1 nL nP = runRandomness opt a2 nL nP := by
  unfold runRandomness usedSeed
  rw [h]

theorem fixed_seed_determinism_witness :
    runRandomness ⟨8, 100, false, some 5, "t", 10, "can32", "mse", "data"⟩ ⟨"mon", 1⟩ 6 4
  = runRandomness ⟨8, 100, false, some 5, "t", 10, "can32", "mse", "data"⟩ ⟨"tue", 2⟩ 6 4 :=
  fixed_seed_determinism _ _ _ _ _ 5 rfl

/-- Claim C6 counterexample: when no manual seed is supplied, line 44
overwrites `opt.manual_seed` after argument parsing, so a field of the
configuration record is mutated during the run: the claim as stated
fails. -/
theorem config_mutated_on_default_seed :
    resolveSeed ⟨8, 100, false, none, "t", 10, "can32", "mse", "data"⟩ ⟨"mon", 7⟩
      ≠ ⟨8, 100, false, none, "t", 10, "can32", "mse", "data"⟩ := by decide

/-- Claim C6 (amended): the seeding block is the only mutation of the
configuration record: it fills in `manual_seed` exactly when it was not
supplied, leaves every other field unchanged, and when a manual seed was
supplied it does not mutate the record at all; afterwards the record is
only read. -/
theorem config_mutation_only_seed (opt : Options) (amb : Ambient) :
    (opt.manual_seed.isSome = true → resolveSeed opt amb = opt)
  ∧ ((resolveSeed opt amb).manual_seed).isSome = true
  ∧ (resolveSeed opt amb).batch_size = opt.batch_size
  ∧ (resolveSeed opt amb).epochs = opt.epochs
  ∧ (resolveSeed opt amb).cuda = opt.cuda
  ∧ (resolveSeed opt amb).run_tag = opt.run_tag
  ∧ (resolveSeed opt amb).checkpoint_every = opt.checkpoint_every
  ∧ (resolveSeed opt amb).model_type = opt.model_type
  ∧ (resolveSeed opt amb).loss = opt.loss
  ∧ (resolveSeed opt amb).data_path = opt.data_path := by
  unfold resolveSeed
  by_cases h : opt.manual_seed = none <;>
    simp [h, Option.isSome_iff_ne_none]

theorem config_mutation_only_seed_witness :
    (Options.manual_seed ⟨8, 100, false, some 5, "t", 10, "can32", "mse", "data"⟩).isSome = true
  ∧ resolveSeed ⟨8, 100, false, some 5, "t", 10, "can32", "mse", "data"⟩ ⟨"mon", 7⟩
      = ⟨8, 100, false, some 5, "t", 10, "can32", "mse", "data"⟩ :=
  ⟨rfl, (config_mutation_only_seed ⟨8, 100, false, some 5, "t", 10, "can32", "mse", "data"⟩
    ⟨"mon", 7⟩).1 rfl⟩

/-- Claim C8 counterexample: the visualization forward pass at line 149 is
not inside a `torch.no_grad()` block, so the evaluating phase contains a
forward pass with gradient tracking enabled: the claim as stated fails. -/
theorem eval_phase_tracked_forward :
    EvalEvent.forward GradMode.track ∈ evalPhaseEvents 1 [0] := by decide

/-- Claim C8 (amended): in the evaluating phase every test-loop forward
pass runs with gradient tracking disabled, every visualization forward
pass runs with gradient tracking enabled, and the phase performs no model
parameter or optimizer-state write. -/
theorem eval_phase_grad_modes (n : ℕ) (tis : List ℕ) :
    (∀ e ∈ testLoopEvents n, e = EvalEvent.forward GradMode.noGrad)
  ∧ (∀ e ∈ vizLoopEvents tis, e = EvalEvent.forward GradMode.track)
  ∧ EvalEvent.paramWrite ∉ evalPhaseEvents n tis := by
  refine ⟨?_, ?_, ?_⟩
  · intro e he
    simp only [testLoopEvents, List.mem_map] at he
    obtain ⟨_, _, rfl⟩ := he
    rfl
  · intro e he
    simp only [vizLoopEvents, List.mem_map] at he
    obtain ⟨_, _, rfl⟩ := he
    rfl
  · simp [evalPhaseEvents, testLoopEvents, vizLoopEvents]

theorem eval_phase_grad_modes_witness :
    EvalEvent.forward GradMode.noGrad ∈ testLoopEvents 2
  ∧ EvalEvent.forward GradMode.noGrad = EvalEvent.forward GradMode.noGrad :=
  ⟨by decide, (eval_phase_grad_modes 2 [0, 1]).1 (EvalEvent.forward GradMode.noGrad) (by decide)⟩

/-- Claim C5 counterexample: in epoch 0 of a run with checkpoint interval
10, the sample image grids are logged even though no checkpoint is written
that epoch, so image grids are not logged only at checkpoint-writing
epochs: the claim as stated fails. -/
theorem images_logged_without_checkpoint :
    LogEvent.image 0 0 ∈ epochEvents "t" 10 [0, 1, 2] 0
  ∧ (epochEvents "t" 10 [0, 1, 2] 0).filterMap saveOf = [] := by decide

/-- Images mapped from save-free event lists leave no saved file. -/
theorem filterMap_saveOf_images (tis : List ℕ) (epoch : ℕ) :
    (tis.map (fun idx => LogEvent.image idx epoch)).filterMap saveOf = [] := by
  induction tis with
  | nil => rfl
  | cons x xs ih => simp [saveOf, ih]

/-- Image events of an epoch, one per sampled index. -/
theorem filterMap_imageOf_images (tis : List ℕ) (epoch : ℕ) :
    (tis.map (fun idx => LogEvent.image idx epoch)).filterMap imageOf
  = tis.map (fun idx => (idx, epoch)) := by
  induction tis with
  | nil => rfl
  | cons x xs ih => simp [imageOf, ih]

/-- Claim C5 (amended): every epoch logs both scalar metrics and also logs
one sample image grid per sampled visualization index; image logging
happens every epoch regardless of the checkpoint cadence. -/
theorem every_epoch_logs_scalars_and_images (tag : String) (ce : ℕ)
    (tis : List ℕ) (epoch : ℕ) :
    LogEvent.scalar "Train Error" epoch ∈ epochEvents tag ce tis epoch
  ∧ LogEvent.scalar "Test Error" epoch ∈ epochEvents tag ce tis epoch
  ∧ (epochEvents tag ce tis epoch).filterMap imageOf
      = tis.map (fun idx => (idx, epoch)) := by
  refine ⟨?_, ?_, ?_⟩
  · simp [epochEvents]
  · simp [epochEvents]
  · unfold epochEvents
    rw [List.filterMap_append, List.filterMap_append, List.filterMap_append,
      filterMap_imageOf_images]
    split <;> simp [imageOf]

/-- One epoch saves the epoch-(e+1) checkpoint exactly when
`(e + 1) % checkpoint_every == 0` (line 130), and nothing else. -/
theorem saves_of_epochEvents (tag : String) (ce : ℕ) (tis : List ℕ) (e : ℕ) :
    (epochEvents tag ce tis e).filterMap saveOf
  = if (e + 1) % ce = 0 then [CkptFile.epochCkpt tag (e + 1)] else [] := by
  unfold epochEvents
  rw [List.filterMap_append, List.filterMap_append, List.filterMap_append,
    filterMap_saveOf_images]
  split <;> simp [saveOf]

/-- The saved files of a run: per-epoch checkpoint saves in epoch order,
then the final model file. -/
theorem savedFiles_eq (tag : String) (ce E : ℕ) (tis : List ℕ) :
    savedFiles tag ce E tis
  = ((List.range E).map (fun e => (epochEvents tag ce tis e).filterMap saveOf)).flatten
      ++ [CkptFile.finalCkpt tag] := by
  unfold savedFiles runEvents
  rw [List.filterMap_append, List.filterMap_flatten, List.map_map]
  simp only [saveOf, List.filterMap_cons, List.filterMap_nil]
  rfl

/-- Counting the epoch-`N` checkpoint among the per-epoch saves of the
first `E` epochs. -/
theorem count_epochCkpt_saves (tag : String) (ce : ℕ) (tis : List ℕ) (N : ℕ) :
    ∀ E : ℕ,
      (((List.range E).map (fun e => (epochEvents tag ce tis e).filterMap saveOf)).flatten).count
          (CkptFile.epochCkpt tag N)
        = if 1 ≤ N ∧ N ≤ E ∧ N % ce = 0 then 1 else 0 := by
  intro E
  induction E with
  | zero =>
    simp only [List.range_zero, List.map_nil, List.flatten_nil, List.count_nil]
    rw [if_neg (fun h => Nat.not_succ_le_zero 0 (Nat.le_trans h.1 h.2.1))]
  | succ E ih =>
    rw [List.range_succ, List.map_append, List.flatten_append, List.count_append, ih]
    simp only [List.map_cons, List.map_nil, List.flatten_cons, List.flatten_nil,
      List.append_nil]
    rw [saves_of_epochEvents]
    by_cases hc : (E + 1) % ce = 0
    · rw [if_pos hc]
      by_cases hN : N = E + 1
      · subst hN
        rw [if_neg (fun h => Nat.not_succ_le_self E h.2.1),
          if_pos ⟨Nat.succ_le_succ (Nat.zero_le E), Nat.le_refl _, hc⟩]
        simp
      · have hcount : ([CkptFile.epochCkpt tag (E + 1)]).count (CkptFile.epochCkpt tag N) = 0 := by
          rw [List.count_eq_zero]
          simp [hN]
        rw [hcount]
        by_cases hr : 1 ≤ N ∧ N ≤ E ∧ N % ce = 0
        · rw [if_pos hr, if_pos ⟨hr.1, Nat.le_succ_of_le hr.2.1, hr.2.2⟩]
        · rw [if_neg hr,
            if_neg (fun h => hr ⟨h.1, Nat.lt_succ_iff.mp (Nat.lt_of_le_of_ne h.2.1 hN), h.2.2⟩)]
    · rw [if_neg hc, List.count_nil]
      by_cases hr : 1 ≤ N ∧ N ≤ E ∧ N % ce = 0
      · rw [if_pos hr, if_pos ⟨hr.1, Nat.le_succ_of_le hr.2.1, hr.2.2⟩]
      · rw [if_neg hr, if_neg ?_]
        intro h
        by_cases hN : N = E + 1
        · exact hc (hN ▸ h.2.2)
        · exact hr ⟨h.1, Nat.lt_succ_iff.mp (Nat.lt_of_le_of_ne h.2.1 hN), h.2.2⟩

/-- Claim C1: with a positive checkpoint interval, a run of `E` epochs
saves the epoch-`N` checkpoint file exactly once when the 1-based epoch
number `N` satisfies `N % checkpoint_every = 0` (and `1 ≤ N ≤ E`) and
never otherwise, saves exactly one final model file, and that final file
is the last file written, after the last epoch completes; `fileName` gives
the on-disk names `tag ++ "_epoch" ++ N ++ ".pt"` and
`tag ++ "_final.pt"`. -/
theorem checkpoint_schedule (tag : String) (ce E : ℕ) (tis : List ℕ)
    (_hce : 0 < ce) :
    (∀ N, (savedFiles tag ce E tis).count (CkptFile.epochCkpt tag N)
        = if 1 ≤ N ∧ N ≤ E ∧ N % ce = 0 then 1 else 0)
  ∧ (savedFiles tag ce E tis).count (CkptFile.finalCkpt tag) = 1
  ∧ (savedFiles tag ce E tis).getLast? = some (CkptFile.finalCkpt tag)
  ∧ (∀ N, fileName (CkptFile.epochCkpt tag N) = tag ++ "_epoch" ++ toString N ++ ".pt")
  ∧ fileName (CkptFile.finalCkpt tag) = tag ++ "_final.pt" := by
  have hs := savedFiles_eq tag ce E tis
  refine ⟨?_, ?_, ?_, fun N => rfl, rfl⟩
  · intro N
    rw [hs, List.count_append, count_epochCkpt_saves]
    have hone : ([CkptFile.finalCkpt tag]).count (CkptFile.epochCkpt tag N) = 0 := by
      rw [List.count_eq_zero]
      simp
    rw [hone, Nat.add_zero]
  · rw [hs, List.count_append]
    have h0 : (((List.range E).map
          (fun e => (epochEvents tag ce tis e).filterMap saveOf)).flatten).count
          (CkptFile.finalCkpt tag) = 0 := by
      rw [List.count_eq_zero]
      intro hmem
      rw [List.mem_flatten] at hmem
      obtain ⟨l, hl, hfl⟩ := hmem
      rw [List.mem_map] at hl
      obtain ⟨e, _, rfl⟩ := hl
      rw [saves_of_epochEvents] at hfl
      revert hfl
      split <;> simp
    rw [h0]
    simp
  · rw [hs, List.getLast?_concat]

theorem checkpoint_schedule_witness :
    (savedFiles "t" 2 3 [0]).count (CkptFile.epochCkpt "t" 2)
      = if 1 ≤ 2 ∧ 2 ≤ 3 ∧ 2 % 2 = 0 then 1 else 0 :=
  (checkpoint_schedule "t" 2 3 [0] (by decide)).1 2

end CondMain
